import Mathlib

/-!
Verification of the data-ingestion and derived-metrics pipeline of the
stock-dashboard repository (two variants):

* jason.py, function load_investment_data — the recurring-plan variant:
  fetch CSV, strip headers, drop empty rows, keep rows with ticker and
  name present, rename columns positionally, coerce numeric columns with
  to_numeric(errors = coerce).fillna(0), add the two derived columns, and
  return None on any raised exception;
  calculate_investment_summary — the aggregate metrics.

* stock_portfolio_dashboard.py, function load_data — the portfolio
  variant: fetch CSV, strip headers, and on any failure return the table
  built by create_sample_data; module-level code then coerces the numeric
  columns with to_numeric(errors = coerce) (no fillna) and computes
  total_market_value, total_profit_loss and total_return_rate.

Tables are embedded shallowly: a table is a header list plus a list of
rows, a cell is NaN (na), a string, or an exact rational; CSV text is
processed at the character-list level so that everything reduces in the
kernel. Machine floats are modelled by exact rationals.
-/

namespace StockDash

/-- A cell of a parsed spreadsheet table: missing (NaN in pandas), a raw
string, or a numeric value (pandas floats modelled as exact rationals). -/
inductive Cell where
  | na : Cell
  | s (v : String) : Cell
  | n (v : ℚ) : Cell
deriving DecidableEq, Repr

/-- A pandas DataFrame, shallowly: column labels plus rows of cells. -/
structure Table where
  headers : List String
  rows : List (List Cell)
deriving DecidableEq, Repr

/-- Split a character list on a separator character (used to model CSV
line and field splitting without String functions that do not reduce). -/
def splitOnChar (sep : Char) : List Char → List (List Char)
  | [] => [[]]
  | c :: cs =>
      match splitOnChar sep cs with
      | [] => [[c]]
      | h :: t => if c = sep then [] :: h :: t else (c :: h) :: t

/-- Join character lists with a separator character. -/
def joinChars (sep : Char) : List (List Char) → List Char
  | [] => []
  | [x] => x
  | x :: xs => x ++ sep :: joinChars sep xs

/-- Whitespace recognized by header stripping. -/
def isSpaceChar (c : Char) : Bool := c == ' ' || c == '\t' || c == '\r'

/-- Trim leading and trailing whitespace from a character list. -/
def trimChars (cs : List Char) : List Char :=
  ((cs.dropWhile isSpaceChar).reverse.dropWhile isSpaceChar).reverse

/-- Models str.strip applied to a column label. -/
def trimStr (s : String) : String := ⟨trimChars s.data⟩

/-- An empty CSV field parses to NaN, anything else to a string cell. -/
def mkCell (cs : List Char) : Cell := if cs = [] then .na else .s ⟨cs⟩

/-- Models pd.read_csv on the response text: split into lines (blank
lines are skipped, as pandas does by default), first line gives the
column labels, remaining lines give rows padded or truncated to the
header width; an empty body raises EmptyDataError, modelled as none. -/
def parseCSV (text : String) : Option Table :=
  let lines := (splitOnChar '\n' text.data).filter (fun l => l ≠ [])
  match lines with
  | [] => none
  | hline :: rlines =>
      let headers := (splitOnChar ',' hline).map (fun cs => (⟨cs⟩ : String))
      let ncols := headers.length
      let rows := rlines.map (fun l =>
        let cells := (splitOnChar ',' l).map mkCell
        cells.take ncols ++ List.replicate (ncols - cells.length) Cell.na)
      some ⟨headers, rows⟩

/-- Recurring-plan canonical column names (jason.py line 102). -/
def colTicker : String := "股票代號"

/-- Column label: security name. -/
def colName : String := "股票名稱"

/-- Column label: monthly contribution amount. -/
def colMonthly : String := "每月投入金額"

/-- Column label: deduction day. -/
def colDay : String := "扣款日"

/-- Column label: broker discount percentage. -/
def colDiscount : String := "券商折扣"

/-- Derived column label: annual contribution amount (jason.py line 117). -/
def colAnnual : String := "年度投入金額"

/-- Derived column label: estimated annual fee (jason.py line 118). -/
def colFee : String := "預估年度手續費"

/-- The expected_columns list of jason.py line 102. -/
def expected_columns : List String := [colTicker, colName, colMonthly, colDay, colDiscount]

/-- Models df.columns.str.strip() (jason.py line 95, dashboard line 53). -/
def stripHeaders (t : Table) : Table := ⟨t.headers.map trimStr, t.rows⟩

/-- Whether a cell is missing (pandas isna). -/
def Cell.isNA : Cell → Bool
  | .na => true
  | _ => false

/-- Positional cell access; out-of-range positions read as NaN (rows are
kept rectangular by the parser, so this default is never load-bearing). -/
def cellAt (r : List Cell) (i : Nat) : Cell := r.getD i .na

/-- Models df.dropna(how = all) (jason.py line 98): drop rows whose every
cell is missing. -/
def dropAllEmpty (rows : List (List Cell)) : List (List Cell) :=
  rows.filter (fun r => !(r.all Cell.isNA))

/-- Row predicate of jason.py line 99: the first two positional cells
(ticker and name) are both present. -/
def keepPred (r : List Cell) : Bool := !(cellAt r 0).isNA && !(cellAt r 1).isNA

/-- Models df[df.iloc[:, 0].notna() and df.iloc[:, 1].notna()]. -/
def keepTickerName (rows : List (List Cell)) : List (List Cell) :=
  rows.filter keepPred

/-- Models jason.py lines 103-104: when the table has at least as many
columns as the schema, assign expected_columns[:len(df.columns)] as the
new labels; the pandas columns setter raises ValueError when the new
label list is shorter than the axis, modelled as none. With fewer
columns than the schema no renaming happens at all. -/
def renameStep (headers : List String) : Option (List String) :=
  if expected_columns.length ≤ headers.length then
    let newCols := expected_columns.take headers.length
    if newCols.length = headers.length then some newCols else none
  else some headers

/-- Numeric value of a digit character. -/
def digitVal (c : Char) : Option Nat :=
  if c.isDigit then some (c.toNat - 48) else none

/-- Value of a nonempty all-digit character list. -/
def digitsVal (cs : List Char) : Option Nat :=
  if cs = [] then none
  else cs.foldl (fun acc c =>
    match acc, digitVal c with
    | some a, some d => some (a * 10 + d)
    | _, _ => none) (some 0)

/-- Unsigned decimal numeral parser (integer part, optional fraction). -/
def parseNumPos (cs : List Char) : Option ℚ :=
  match splitOnChar '.' cs with
  | [intPart] => (digitsVal intPart).map (fun a => (a : ℚ))
  | [intPart, fracPart] =>
      match digitsVal intPart, digitsVal fracPart with
      | some a, some b => some ((a : ℚ) + (b : ℚ) / ((10 : ℚ) ^ fracPart.length))
      | _, _ => none
  | _ => none

/-- Signed decimal numeral parser. -/
def parseNumChars : List Char → Option ℚ
  | '-' :: rest => (parseNumPos rest).map (fun q => -q)
  | cs => parseNumPos cs

/-- Models the scalar conversion performed by pd.to_numeric on one
string cell: trim, then parse a signed decimal numeral. -/
def parseNum (s : String) : Option ℚ := parseNumChars (trimChars s.data)

/-- Numeric reading of a cell: NaN and unparseable strings give none. -/
def toNumCell? : Cell → Option ℚ
  | .na => none
  | .s v => parseNum v
  | .n q => some q

/-- Cell policy of jason.py lines 107-114: pd.to_numeric(errors =
coerce).fillna(0) — every cell of the column becomes a number, with
failures and missing cells becoming exactly 0. -/
def coerceFill0 (c : Cell) : Cell := .n ((toNumCell? c).getD 0)

/-- Cell policy of stock_portfolio_dashboard.py line 96: pd.to_numeric
(errors = coerce) without fillna — failures and missing cells stay NaN. -/
def coerceKeepNA (c : Cell) : Cell :=
  match toNumCell? c with
  | some q => .n q
  | none => .na

/-- Index of a column label, first match (pandas label lookup). -/
def colIdx (headers : List String) (name : String) : Option Nat :=
  headers.findIdx? (fun h => h == name)

/-- Apply a cell policy to one column if that column is present (the
membership guards of jason.py lines 107/110/113 and dashboard line 95). -/
def coerceColumn (t : Table) (name : String) (f : Cell → Cell) : Table :=
  match colIdx t.headers name with
  | none => t
  | some i => ⟨t.headers, t.rows.map (fun r => r.set i (f (cellAt r i)))⟩

/-- Models a pandas column assignment df[name] = rowfun(df): replace the
column when the label exists, otherwise append it on the right. -/
def setColumn (t : Table) (name : String) (f : List Cell → Cell) : Table :=
  match colIdx t.headers name with
  | some i => ⟨t.headers, t.rows.map (fun r => r.set i (f r))⟩
  | none => ⟨t.headers ++ [name], t.rows.map (fun r => r ++ [f r])⟩

/-- Numeric value pandas arithmetic sees in a coerced column; NaN reads
as 0 only inside sums, which matches the default skipna behaviour. -/
def cellVal (c : Cell) : ℚ :=
  match c with
  | .n q => q
  | _ => 0

/-- Cell of a row under a column label. -/
def cellByName (headers : List String) (r : List Cell) (name : String) : Cell :=
  match colIdx headers name with
  | some i => cellAt r i
  | none => .na

/-- Models df[name].sum() (pandas skips NaN, an absent column never
arises at the call sites below without its own guard). -/
def colSum (t : Table) (name : String) : ℚ :=
  (t.rows.map (fun r => cellVal (cellByName t.headers r name))).sum

/-- Number of non-missing cells of a column. -/
def colCount (t : Table) (name : String) : Nat :=
  (t.rows.filter (fun r => !(cellByName t.headers r name).isNA)).length

/-- Models df[name].mean() = sum over count of non-missing cells. -/
def colMean (t : Table) (name : String) : ℚ :=
  colSum t name / (colCount t name : ℚ)

/-- The first derived assignment (jason.py line 117): the annual-amount
column is the monthly column (at index mi) times 12. -/
def annualAdded (t : Table) (mi : Nat) : Table :=
  setColumn t colAnnual (fun r => .n (cellVal (cellAt r mi) * 12))

/-- Models jason.py lines 116-118: the two derived-column assignments.
Accessing a missing column on the right-hand side raises KeyError,
modelled as none (caught by the catch-all handler of line 128). -/
def deriveColumns (t : Table) : Option Table :=
  match colIdx t.headers colMonthly with
  | none => none
  | some mi =>
    match colIdx (annualAdded t mi).headers colDiscount with
    | none => none
    | some di =>
      match colIdx (annualAdded t mi).headers colAnnual with
      | none => none
      | some ai =>
        some (setColumn (annualAdded t mi) colFee
          (fun r => .n (cellVal (cellAt r di) / 100 * cellVal (cellAt r ai))))

/-- The three numeric coercions of jason.py lines 106-114. -/
def coerce3 (t : Table) : Table :=
  coerceColumn (coerceColumn (coerceColumn t colMonthly coerceFill0) colDay coerceFill0)
    colDiscount coerceFill0

/-- Table-level normalization of jason.py lines 94-120 (everything after
read_csv): strip labels, drop empty rows, keep ticker-and-name rows
(raising IndexError, hence none, when there are fewer than two columns),
rename, coerce, derive. Any raised exception is caught by the handlers
of lines 122-130, so the whole load returns None, modelled as none. -/
def normalizeTable (t0 : Table) : Option Table :=
  if (stripHeaders t0).headers.length < 2 then none
  else
    match renameStep (stripHeaders t0).headers with
    | none => none
    | some hs =>
        deriveColumns (coerce3 ⟨hs, keepTickerName (dropAllEmpty (stripHeaders t0).rows)⟩)

/-- Full text-level normalization of jason.py: read_csv then the
table-level passes. -/
def normalizeJason (text : String) : Option Table :=
  (parseCSV text).bind normalizeTable

/-- Outcome of the HTTP fetch: response text, or a raised
requests exception with its message. -/
inductive FetchResult where
  | ok (text : String) : FetchResult
  | err (msg : String) : FetchResult
deriving DecidableEq, Repr

/-- jason.py load_investment_data as a function of the fetch outcome:
every exception handler (lines 122-130) returns None. -/
def load_investment_data (r : FetchResult) : Option Table :=
  match r with
  | .err _ => none
  | .ok text => normalizeJason text

/-- The aggregate record built by calculate_investment_summary (jason.py
lines 149-161); field names translate the Chinese dict keys in order:
total stock count, monthly total, annual total, mean broker discount,
total estimated fee, fee savings. -/
structure SummaryRec where
  totalStocks : Nat
  monthlyTotal : ℚ
  annualTotal : ℚ
  avgDiscount : ℚ
  totalFee : ℚ
  feeSavings : ℚ
deriving DecidableEq, Repr

/-- The standard commission rate constant of jason.py line 157. -/
def standard_fee : ℚ := 1425 / 10000

/-- jason.py calculate_investment_summary: on None or an empty table the
function returns the empty dict, modelled as none; otherwise it returns
the populated record, with fee savings computed by the formula only when
the mean discount is strictly positive (lines 158-161). -/
def calculate_investment_summary (df : Option Table) : Option SummaryRec :=
  match df with
  | none => none
  | some t =>
    if t.rows = [] then none
    else
      some ⟨t.rows.length, colSum t colMonthly, colSum t colAnnual,
        colMean t colDiscount, colSum t colFee,
        if 0 < colMean t colDiscount then
          (standard_fee - colMean t colDiscount) / 100 * colSum t colAnnual
        else 0⟩

/-- Portfolio-variant column label: shares held. -/
def colShares : String := "持股數量"

/-- Portfolio-variant column label: cost price. -/
def colCost : String := "成本價"

/-- Portfolio-variant column label: current price. -/
def colPrice : String := "現價"

/-- Portfolio-variant column label: market value. -/
def colMV : String := "市值"

/-- Portfolio-variant column label: profit or loss amount. -/
def colPL : String := "盈虧金額"

/-- Portfolio-variant column label: profit or loss percentage. -/
def colPLpct : String := "盈虧比例"

/-- The numeric_columns list of stock_portfolio_dashboard.py line 93. -/
def numeric_columns : List String := [colShares, colCost, colPrice, colMV, colPL, colPLpct]

/-- Sample ticker strings of create_sample_data. -/
def sTk : List String := ["2330", "2317", "2454", "3008", "2412", "2382"]

/-- Sample name strings of create_sample_data. -/
def sNm : List String := ["台積電", "鴻海", "聯發科", "大立光", "中華電", "廣達"]

/-- stock_portfolio_dashboard.py create_sample_data (lines 64-76): the
fabricated six-row demonstration table. -/
def create_sample_data : Table :=
  ⟨[colTicker, colName, colShares, colCost, colPrice, colMV, colPL, colPLpct],
   [[.s (sTk.getD 0 ""), .s (sNm.getD 0 ""), .n 100, .n 520, .n 580, .n 58000, .n 6000, .n (1154/100)],
    [.s (sTk.getD 1 ""), .s (sNm.getD 1 ""), .n 200, .n 95, .n 102, .n 20400, .n 1400, .n (737/100)],
    [.s (sTk.getD 2 ""), .s (sNm.getD 2 ""), .n 50, .n 800, .n 750, .n 37500, .n (-2500), .n (-625/100)],
    [.s (sTk.getD 3 ""), .s (sNm.getD 3 ""), .n 30, .n 2500, .n 2800, .n 84000, .n 9000, .n 12],
    [.s (sTk.getD 4 ""), .s (sNm.getD 4 ""), .n 150, .n 120, .n 125, .n 18750, .n 750, .n (417/100)],
    [.s (sTk.getD 5 ""), .s (sNm.getD 5 ""), .n 80, .n 180, .n 190, .n 15200, .n 800, .n (556/100)]]⟩

/-- stock_portfolio_dashboard.py load_data (lines 46-62) as a function
of the fetch outcome: on success, read_csv then strip the labels; any
exception (network or parse) falls into the handler of line 59, which
returns create_sample_data instead of surfacing the failure. -/
def load_data (r : FetchResult) : Table :=
  match r with
  | .err _ => create_sample_data
  | .ok text =>
    match parseCSV text with
    | none => create_sample_data
    | some t => stripHeaders t

/-- The module-level coercion loop of stock_portfolio_dashboard.py lines
93-96: to_numeric(errors = coerce) on each designated column present,
with no fillna. -/
def dashCoerce (t : Table) : Table :=
  numeric_columns.foldl (fun acc c => coerceColumn acc c coerceKeepNA) t

/-- Dashboard line 99: market-value sum, 0 when the column is absent. -/
def total_market_value (t : Table) : ℚ :=
  if (colIdx t.headers colMV).isSome then colSum t colMV else 0

/-- Dashboard line 100: profit-loss sum, 0 when the column is absent. -/
def total_profit_loss (t : Table) : ℚ :=
  if (colIdx t.headers colPL).isSome then colSum t colPL else 0

/-- Dashboard line 101: the total return percentage with its
zero-denominator guard written exactly as in the source conditional. -/
def total_return_rate (t : Table) : ℚ :=
  if total_market_value t ≠ total_profit_loss t then
    total_profit_loss t / (total_market_value t - total_profit_loss t) * 100
  else 0

/-- Digit characters of a positive natural number, fuel-driven so that
it reduces in the kernel. -/
def natDigitsAux : Nat → Nat → List Char
  | 0, _ => []
  | _ + 1, 0 => []
  | fuel + 1, n => natDigitsAux fuel (n / 10) ++ [Char.ofNat (48 + n % 10)]

/-- Decimal representation of a natural number. -/
def natChars (n : Nat) : List Char :=
  if n = 0 then ['0'] else natDigitsAux (n + 1) n

/-- Decimal representation of an integer. -/
def intChars (i : Int) : List Char :=
  if i < 0 then '-' :: natChars i.natAbs else natChars i.natAbs

/-- Serialization of a rational cell value; the concrete tables below
only ever serialize integral values, matching the integral floats the
source writes back with to_csv. -/
def ratChars (q : ℚ) : List Char :=
  if q.den = 1 then intChars q.num
  else intChars q.num ++ '%' :: natChars q.den

/-- Serialization of one cell: NaN becomes the empty field. -/
def Cell.toChars : Cell → List Char
  | .na => []
  | .s v => v.data
  | .n q => ratChars q

/-- Models df.to_csv(index = False): header line then one line per row,
comma-separated, with a trailing newline. -/
def to_csv (t : Table) : String :=
  let headerLine := joinChars ',' (t.headers.map String.data)
  let rowLines := t.rows.map (fun r => joinChars ',' (r.map Cell.toChars))
  ⟨joinChars '\n' (headerLine :: rowLines) ++ ['\n']⟩

/-! Concrete data used by the witnesses and counterexamples below. -/

/-- Concrete two-row portfolio table with market-value sum 100000 and
profit-loss sum 10000, the worked example of the spec. -/
def c4tbl : Table :=
  ⟨[colMV, colPL], [[.n 60000, .n 4000], [.n 40000, .n 6000]]⟩

/-- Concrete table for the spec example behind C5: two rows with
discounts 0.1 and 0.2 (mean 0.15) and annual amounts of 120000 each. -/
def c5tbl : Table :=
  ⟨[colDiscount, colAnnual], [[.n (1/10), .n 120000], [.n (2/10), .n 120000]]⟩

/-- The summary record the code computes on c5tbl; the monthly and fee
sums are 0 because those columns are absent from this minimal table. -/
def c5rec : SummaryRec := ⟨2, 0, 240000, 15/100, 0, -18⟩

/-- Symbolic row of the canonical recurring-plan shape that every row of
a successfully normalized five-column table has after coercion. -/
structure PlanRow where
  tkr : String
  nm : String
  monthly : ℚ
  day : ℚ
  disc : ℚ

/-- Cells of a canonical coerced row. -/
def planRow5 (p : PlanRow) : List Cell :=
  [.s p.tkr, .s p.nm, .n p.monthly, .n p.day, .n p.disc]

/-- A well-formed five-column recurring-plan CSV body with one data row
(monthly 1000, deduction day 6, discount 2 percent). -/
def csv5ex : String := "股票代號,股票名稱,每月投入金額,扣款日,券商折扣\n2330,台積電,1000,6,2\n"

/-- Sample ticker string of the csv5ex data row. -/
def str2330 : String := "2330"

/-- Sample security name of the csv5ex data row. -/
def strTSMC : String := "台積電"

/-- Raw monthly-amount field of the csv5ex data row. -/
def strM1000 : String := "1000"

/-- Raw deduction-day field of the csv5ex data row. -/
def strD6 : String := "6"

/-- Raw discount field of the csv5ex data row. -/
def strP2 : String := "2"

/-- What parseCSV produces from csv5ex. -/
def parsed5 : Table :=
  ⟨[colTicker, colName, colMonthly, colDay, colDiscount],
   [[.s str2330, .s strTSMC, .s strM1000, .s strD6, .s strP2]]⟩

/-- What the full jason.py normalization produces from csv5ex: the five
canonical columns coerced plus the two derived columns. -/
def t7ex : Table :=
  ⟨[colTicker, colName, colMonthly, colDay, colDiscount, colAnnual, colFee],
   [[.s str2330, .s strTSMC, .n 1000, .n 6, .n 2, .n 12000, .n 240]]⟩

/-- A six-column CSV body (more columns than the expected schema). -/
def csv6ex : String := "h1,h2,h3,h4,h5,h6\n1,2,3,4,5,6\n"

/-- A four-column CSV body (fewer columns than the expected schema). -/
def csv4ex : String := "h1,h2,h3,h4\n1,2,3,4\n"

/-- A one-column CSV body, for the fewer-than-two-columns failure. -/
def csv1ex : String := "h1\n7\n"

/-- Header label used by the small ad-hoc CSV bodies above. -/
def strH1 : String := "h1"

/-- Data field of the one-column CSV body. -/
def str7 : String := "7"

/-- What parseCSV produces from csv1ex. -/
def t1ex : Table := ⟨[strH1], [[.s str7]]⟩

/-- Six headers: the canonical five plus the derived annual column. -/
def sixHeaders : List String :=
  [colTicker, colName, colMonthly, colDay, colDiscount, colAnnual]

/-- Four headers, short of the schema. -/
def fourHeaders : List String := [colTicker, colName, colMonthly, colDay]

/-- A rowless table with six columns. -/
def tbl6 : Table := ⟨sixHeaders, []⟩

/-- A table with no market-value column. -/
def noMVtbl : Table := ⟨[colTicker], [[.n 5]]⟩

/-- An error message for the fetch-failure scenarios. -/
def netErr : String := "network unreachable"

/-- The empty response body (pandas raises EmptyDataError on it). -/
def emptyText : String := ""

/-- An unparseable numeric field. -/
def strAbc : String := "abc"

/-- One-column, one-cell portfolio table whose market-value cell is not
numeric. -/
def c3tbl : Table := ⟨[colMV], [[.s strAbc]]⟩

/-- Rows exercising the two drop rules: a keepable row, an entirely
empty row, and a row whose second (name) cell is missing. -/
def rows7ex : List (List Cell) :=
  [[.n 1, .n 2, .na], [.na, .na, .na], [.n 3, .na, .n 1]]

/-- The entirely empty row of rows7ex. -/
def rowNAex : List Cell := [.na, .na, .na]

/-- The five-column canonical table with no data rows. -/
def emptyPlan : Table := ⟨expected_columns, []⟩

/-- Modelled from the claim wording of C1 (spec section 4.2 step 5):
rename the first N = min(actual count, schema size) columns to the
canonical names and leave the columns beyond the schema unchanged. The
source renameStep does not refine this specification. -/
def renameSpec (hs : List String) : List String :=
  expected_columns.take (min hs.length 5) ++ hs.drop (min hs.length 5)

/-! Helper lemmas shared between the claims. -/

theorem renameStep_of_gt {hs : List String} (h : 5 < hs.length) :
    renameStep hs = none := by
  unfold renameStep
  have h5 : expected_columns.length = 5 := rfl
  rw [if_pos (by omega)]
  have ht : (expected_columns.take hs.length).length = 5 := by
    rw [List.length_take, h5]
    omega
  simp only [ht]
  rw [if_neg (by omega)]

theorem renameStep_of_five {hs : List String} (h : hs.length = 5) :
    renameStep hs = some expected_columns := by
  unfold renameStep
  have h5 : expected_columns.length = 5 := rfl
  rw [if_pos (by omega)]
  have ht : expected_columns.take hs.length = expected_columns := by
    rw [h, ← h5, List.take_length]
  simp only [ht]
  rw [if_pos (by omega)]

theorem renameStep_of_lt {hs : List String} (h : hs.length < 5) :
    renameStep hs = some hs := by
  unfold renameStep
  have h5 : expected_columns.length = 5 := rfl
  rw [if_neg (by omega)]

theorem coerceColumn_headers (t : Table) (name : String) (f : Cell → Cell) :
    (coerceColumn t name f).headers = t.headers := by
  unfold coerceColumn
  cases colIdx t.headers name <;> rfl

theorem coerceColumn_rows_length (t : Table) (name : String) (f : Cell → Cell) :
    (coerceColumn t name f).rows.length = t.rows.length := by
  unfold coerceColumn
  cases colIdx t.headers name
  · rfl
  · simp

theorem setColumn_rows_length (t : Table) (name : String) (f : List Cell → Cell) :
    (setColumn t name f).rows.length = t.rows.length := by
  unfold setColumn
  cases colIdx t.headers name <;> simp

theorem deriveColumns_rows_length {t u : Table} (h : deriveColumns t = some u) :
    u.rows.length = t.rows.length := by
  unfold deriveColumns at h
  split at h
  · exact absurd h (by simp)
  · split at h
    · exact absurd h (by simp)
    · split at h
      · exact absurd h (by simp)
      · injection h with h
        rw [← h, setColumn_rows_length, annualAdded, setColumn_rows_length]

/-- C4: in the portfolio variant the total return percentage equals
profit-loss sum divided by (market-value sum minus profit-loss sum)
times 100 whenever that denominator is nonzero, and equals 0 (no error,
NaN or infinity) exactly in the guarded case where the two sums agree
(stock_portfolio_dashboard.py line 101). -/
theorem c4_total_return_guard (t : Table) :
    (total_market_value t - total_profit_loss t ≠ 0 →
      total_return_rate t =
        total_profit_loss t / (total_market_value t - total_profit_loss t) * 100) ∧
    (total_market_value t = total_profit_loss t → total_return_rate t = 0) := by
  constructor
  · intro h
    have hne : total_market_value t ≠ total_profit_loss t := sub_ne_zero.mp h
    unfold total_return_rate
    rw [if_pos hne]
  · intro h
    unfold total_return_rate
    rw [if_neg (by simp [h])]

/-- Witness for C4 at the spec example: denominator 90000 is nonzero and
the rate is 10000 / 90000 * 100 = 100 / 9 (the 11.11 percent). -/
theorem c4_total_return_guard_witness :
    total_market_value c4tbl - total_profit_loss c4tbl ≠ 0 ∧
      total_return_rate c4tbl = 100 / 9 :=
  ⟨by decide!, by
    rw [(c4_total_return_guard c4tbl).1 (by decide!)]
    decide!⟩

/-- C5: for a nonempty recurring-plan table the fee savings equal
(0.1425 - mean discount) / 100 times the annual total whenever the mean
discount is strictly positive — even when that value is negative — and
are clamped to 0 exactly in the branch where the mean is not positive
(jason.py lines 156-161). -/
theorem c5_fee_savings (t : Table) (r : SummaryRec)
    (hr : calculate_investment_summary (some t) = some r) :
    (0 < r.avgDiscount →
      r.feeSavings = (standard_fee - r.avgDiscount) / 100 * r.annualTotal) ∧
    (r.avgDiscount ≤ 0 → r.feeSavings = 0) := by
  simp only [calculate_investment_summary] at hr
  by_cases he : t.rows = []
  · rw [if_pos he] at hr
    exact absurd hr (by simp)
  · rw [if_neg he] at hr
    injection hr with hr
    subst hr
    constructor
    · intro hpos
      simp only at hpos ⊢
      rw [if_pos hpos]
    · intro hle
      simp only at hle ⊢
      rw [if_neg (not_lt.mpr hle)]

/-- Witness for C5: on the spec example the mean 0.15 exceeds 0.1425, so
the formula yields the negative value -18, which is preserved rather
than clamped. -/
theorem c5_fee_savings_witness :
    calculate_investment_summary (some c5tbl) = some c5rec ∧
      0 < c5rec.avgDiscount ∧ c5rec.feeSavings = -18 :=
  ⟨by decide!, by decide!,
    ((c5_fee_savings c5tbl c5rec (by decide!)).1 (by decide!)).trans (by decide!)⟩

/-- C6: the derived-column step of jason.py lines 116-118 appends to
every row an annual amount equal to the monthly amount times 12 and an
estimated annual fee equal to the broker discount divided by 100 times
that annual amount (so monthly 1000 with discount 0.1 gives 12000 and
12). -/
theorem c6_derived_fields (ps : List PlanRow) :
    deriveColumns ⟨expected_columns, ps.map planRow5⟩ =
      some ⟨expected_columns ++ [colAnnual, colFee],
        ps.map (fun p => planRow5 p ++
          [Cell.n (p.monthly * 12), Cell.n (p.disc / 100 * (p.monthly * 12))])⟩ := by
  have h1 : colIdx expected_columns colMonthly = some 2 := by decide!
  have h2 : colIdx expected_columns colAnnual = none := by decide!
  have h3 : colIdx (expected_columns ++ [colAnnual]) colDiscount = some 4 := by decide!
  have h4 : colIdx (expected_columns ++ [colAnnual]) colAnnual = some 5 := by decide!
  have h5 : colIdx (expected_columns ++ [colAnnual]) colFee = none := by decide!
  simp only [deriveColumns, annualAdded, setColumn, h1, h2, h3, h4, h5]
  rw [List.map_map, List.map_map]
  refine congrArg some (congrArg _ ?_)
  refine List.map_congr_left ?_
  intro p _
  rfl

theorem allNA_cellAt_zero {r : List Cell} (h : r.all Cell.isNA = true) :
    (cellAt r 0).isNA = true := by
  cases r with
  | nil => rfl
  | cons c cs =>
    rw [List.all_cons, Bool.and_eq_true] at h
    exact h.1

theorem keep_eq_filter (rows : List (List Cell)) :
    keepTickerName (dropAllEmpty rows) = rows.filter keepPred := by
  unfold keepTickerName dropAllEmpty
  rw [List.filter_filter]
  refine List.filter_congr ?_
  intro r _
  by_cases hall : r.all Cell.isNA = true
  · have h0 : (cellAt r 0).isNA = true := allNA_cellAt_zero hall
    simp [keepPred, h0, hall]
  · rw [Bool.not_eq_true] at hall
    simp [hall]

/-- C7: the normalization of jason.py lines 97-99 drops exactly the rows
that are entirely empty together with the rows whose first two cells
(ticker and name) are not both present, and the row count of every
successfully normalized table — hence the count aggregate of the
summary — equals the count of the retained rows. -/
theorem c7_dropped_rows :
    (∀ rows : List (List Cell),
      keepTickerName (dropAllEmpty rows) = rows.filter keepPred ∧
      ∀ r ∈ rows, (r ∉ keepTickerName (dropAllEmpty rows) ↔
        r.all Cell.isNA = true ∨ (cellAt r 0).isNA = true ∨ (cellAt r 1).isNA = true)) ∧
    (∀ t u, normalizeTable t = some u →
      u.rows.length = (keepTickerName (dropAllEmpty t.rows)).length) := by
  constructor
  · intro rows
    refine ⟨keep_eq_filter rows, ?_⟩
    intro r hr
    rw [keep_eq_filter]
    constructor
    · intro hnot
      by_contra hc
      push_neg at hc
      obtain ⟨h1, h2, h3⟩ := hc
      have h2f : (cellAt r 0).isNA = false := Bool.eq_false_iff.mpr h2
      have h3f : (cellAt r 1).isNA = false := Bool.eq_false_iff.mpr h3
      exact hnot (List.mem_filter.mpr ⟨hr, by simp [keepPred, h2f, h3f]⟩)
    · intro hdrop hmem
      obtain ⟨-, hkeep⟩ := List.mem_filter.mp hmem
      rcases hdrop with hall | h0 | h1
      · have h0 := allNA_cellAt_zero hall
        simp [keepPred, h0] at hkeep
      · simp [keepPred, h0] at hkeep
      · simp [keepPred, h1] at hkeep
  · intro t u h
    unfold normalizeTable at h
    split at h
    · exact absurd h (by simp)
    · split at h
      · exact absurd h (by simp)
      · have hd := deriveColumns_rows_length h
        rw [hd]
        unfold coerce3
        rw [coerceColumn_rows_length, coerceColumn_rows_length, coerceColumn_rows_length]
        rfl

/-- Witness for C7: the entirely empty row of the concrete row list is
dropped, and the normalized row count of the concrete five-column CSV
equals the count of the rows retained by the two drop passes. -/
theorem c7_dropped_rows_witness :
    rowNAex ∈ rows7ex ∧
    rowNAex ∉ keepTickerName (dropAllEmpty rows7ex) ∧
    t7ex.rows.length = (keepTickerName (dropAllEmpty parsed5.rows)).length :=
  ⟨by decide!,
   ((c7_dropped_rows.1 rows7ex).2 rowNAex (by decide!)).mpr (Or.inl (by decide!)),
   c7_dropped_rows.2 parsed5 t7ex (by decide!)⟩

/-- C10: when the fetched CSV parses to a table with fewer than two
columns, the row filter of jason.py line 99 indexes column position 1,
raises IndexError, and the catch-all handler makes the load return
None — not an empty table. -/
theorem c10_few_columns (text : String) (t : Table)
    (hp : parseCSV text = some t) (hlt : t.headers.length < 2) :
    load_investment_data (FetchResult.ok text) = none := by
  show normalizeJason text = none
  unfold normalizeJason
  rw [hp]
  show normalizeTable t = none
  have hs : (stripHeaders t).headers.length < 2 := by
    unfold stripHeaders
    simpa using hlt
  unfold normalizeTable
  rw [if_pos hs]

/-- Witness for C10 at a concrete one-column CSV. -/
theorem c10_few_columns_witness :
    parseCSV csv1ex = some t1ex ∧ t1ex.headers.length < 2 ∧
      load_investment_data (FetchResult.ok csv1ex) = none :=
  ⟨by decide!, by decide!, c10_few_columns csv1ex t1ex (by decide!) (by decide!)⟩

/-- C1, counterexample: the claim predicts that a parsed table always
loads with the first min(count, 5) columns renamed, extra columns kept
and missing ones tolerated. On a six-column CSV the pandas columns
assignment of jason.py line 104 raises ValueError (five labels for six
columns) and the load returns None, differing from the claimed rename
(renameSpec, transcribed from the claim); on a four-column CSV nothing
is renamed, so the derived-column step raises KeyError and the load
returns None rather than treating the absent columns as zero. -/
theorem c1_counterexample :
    load_investment_data (FetchResult.ok csv6ex) = none ∧
    load_investment_data (FetchResult.ok csv4ex) = none ∧
    renameStep sixHeaders ≠ some (renameSpec sixHeaders) :=
  ⟨by decide!, by decide!, by decide!⟩

/-- C1, amended: the recurring-plan rename fires only when the column
count is at least the schema size — renaming everything at exactly five
columns, failing the whole load above five, and renaming nothing below
five (where the load then fails in the derived step unless the raw
headers already carry the canonical names); the portfolio variant never
renames and its aggregates treat an absent market-value column as 0. -/
theorem c1_amended :
    (∀ hs : List String,
      (hs.length = 5 → renameStep hs = some expected_columns) ∧
      (5 < hs.length → renameStep hs = none) ∧
      (hs.length < 5 → renameStep hs = some hs)) ∧
    (∀ t : Table, colIdx t.headers colMV = none → total_market_value t = 0) := by
  constructor
  · intro hs
    exact ⟨renameStep_of_five, renameStep_of_gt, renameStep_of_lt⟩
  · intro t h
    unfold total_market_value
    rw [h]
    rfl

/-- Witness for C1 (amended) at concrete header lists and a concrete
table without a market-value column. -/
theorem c1_amended_witness :
    renameStep expected_columns = some expected_columns ∧
    renameStep sixHeaders = none ∧
    renameStep fourHeaders = some fourHeaders ∧
    total_market_value noMVtbl = 0 :=
  ⟨(c1_amended.1 expected_columns).1 rfl,
   (c1_amended.1 sixHeaders).2.1 (by decide!),
   (c1_amended.1 fourHeaders).2.2 (by decide!),
   c1_amended.2 noMVtbl (by decide!)⟩

/-- C2, counterexample: on a failing fetch the portfolio-variant load
returns the six-row fabricated table of create_sample_data instead of
surfacing the failure, contradicting the claim that the load never
substitutes synthetic sample data. -/
theorem c2_counterexample :
    load_data (FetchResult.err netErr) = create_sample_data ∧
    create_sample_data.rows.length = 6 :=
  ⟨rfl, rfl⟩

/-- C2, amended: only the recurring-plan load surfaces fetch and parse
failures (as None); the portfolio-variant load replaces every failure,
network or parse, by the fabricated sample table. -/
theorem c2_amended :
    (∀ msg, load_investment_data (FetchResult.err msg) = none) ∧
    (∀ msg, load_data (FetchResult.err msg) = create_sample_data) ∧
    load_investment_data (FetchResult.ok emptyText) = none ∧
    load_data (FetchResult.ok emptyText) = create_sample_data :=
  ⟨fun _ => rfl, fun _ => rfl, by decide!, by decide!⟩

/-- C3, counterexample: in the portfolio variant the coercion of line 96
has no fillna, so an unparseable market-value cell becomes NaN in the
normalized table, not exactly zero as the claim states for both
variants. -/
theorem c3_counterexample :
    dashCoerce c3tbl = ⟨[colMV], [[Cell.na]]⟩ ∧
    (⟨[colMV], [[Cell.na]]⟩ : Table) ≠ ⟨[colMV], [[Cell.n 0]]⟩ :=
  ⟨by decide!, by decide!⟩

/-- C3, amended: a cell that fails numeric coercion becomes exactly 0
only in the recurring-plan variant; the portfolio variant leaves it NaN.
In both variants the coercion is total at the cell level — parseable
cells keep their value, and the column pass never changes the header
list, so a cell-level failure never turns into a load error. -/
theorem c3_amended :
    (∀ c : Cell, toNumCell? c = none → coerceFill0 c = Cell.n 0 ∧ coerceKeepNA c = Cell.na) ∧
    (∀ c : Cell, ∀ q : ℚ, toNumCell? c = some q →
      coerceFill0 c = Cell.n q ∧ coerceKeepNA c = Cell.n q) ∧
    (∀ t name f, (coerceColumn t name f).headers = t.headers) := by
  refine ⟨?_, ?_, coerceColumn_headers⟩
  · intro c h
    unfold coerceFill0 coerceKeepNA
    rw [h]
    exact ⟨rfl, rfl⟩
  · intro c q h
    unfold coerceFill0 coerceKeepNA
    rw [h]
    exact ⟨rfl, rfl⟩

/-- Witness for C3 (amended) at the unparseable cell of c3tbl. -/
theorem c3_amended_witness :
    toNumCell? (Cell.s strAbc) = none ∧
    coerceFill0 (Cell.s strAbc) = Cell.n 0 ∧
    coerceKeepNA (Cell.s strAbc) = Cell.na :=
  ⟨by decide!,
   (c3_amended.1 (Cell.s strAbc) (by decide!)).1,
   (c3_amended.1 (Cell.s strAbc) (by decide!)).2⟩

/-- C8, counterexample: normalize is not idempotent. The concrete
five-column CSV normalizes successfully to a seven-column table (the two
derived columns are appended), but normalizing its re-serialized CSV
fails — the rename step sees seven columns and raises — so the second
pass returns None instead of the same table. -/
theorem c8_counterexample :
    normalizeJason csv5ex = some t7ex ∧ normalizeJason (to_csv t7ex) = none :=
  ⟨by decide!, by decide!⟩

/-- C8, amended: normalization fails outright on every table with more
than five columns, and a successful normalize of a schema-conforming
(five-column) input always outputs seven columns; hence re-normalizing
the serialized output fails and idempotence does not hold for such
inputs. -/
theorem c8_amended (t : Table) (h : 5 < t.headers.length) :
    normalizeTable t = none := by
  have hlen : (stripHeaders t).headers.length = t.headers.length := by
    unfold stripHeaders
    simp
  unfold normalizeTable
  by_cases h2 : (stripHeaders t).headers.length < 2
  · rw [if_pos h2]
  · rw [if_neg h2, renameStep_of_gt (by omega)]

/-- Witness for C8 (amended) at a rowless six-column table. -/
theorem c8_amended_witness :
    5 < tbl6.headers.length ∧ normalizeTable tbl6 = none :=
  ⟨by decide!, c8_amended tbl6 (by decide!)⟩

/-- C9, counterexample: on an empty (zero-row) well-formed table the
summary calculator of jason.py line 146 returns the empty dict (none
here), not a metrics record carrying zero-valued sums, so the claimed
record does not exist. -/
theorem c9_counterexample :
    calculate_investment_summary (some emptyPlan) = none ∧
    (calculate_investment_summary (some emptyPlan)).isSome = false :=
  ⟨rfl, rfl⟩

/-- C9, amended: on an empty or missing table compute totally and purely
returns the empty record with no aggregates at all — so no NaN mean is
ever produced, but no zero-valued sums are returned either, and callers
must guard for the absence of every key. -/
theorem c9_amended (t : Table) (h : t.rows = []) :
    calculate_investment_summary (some t) = none ∧
    calculate_investment_summary none = none := by
  constructor
  · simp only [calculate_investment_summary]
    rw [if_pos h]
  · rfl

/-- Witness for C9 (amended) at the concrete empty canonical table. -/
theorem c9_amended_witness :
    emptyPlan.rows = [] ∧ calculate_investment_summary (some emptyPlan) = none :=
  ⟨rfl, (c9_amended emptyPlan rfl).1⟩

end StockDash

